import Mathlib

/-!
Patterns_DZ2: Prototype, Builder, Factory Method and Abstract Factory

A shallow embedding of `Patterns_DZ2.cpp`.

* `std::cout` is the text written so far (a `String`); `<< std::endl` appends a newline
  (the flush is not observable and is not modelled).
* A `Biome*` is `Option Biome`: `none` is the null pointer. The biome classes
  have no mutators, so a pointer to a biome is modelled by the value it points to.
* `std::unordered_map<std::string, Biome*>` is a list of key/value entries; the container
  keeps its keys unique (`UnorderedMap.WellFormed`). Iteration order is not used by the program.
* A call through a null pointer is undefined behaviour; it is modelled as the fault
  `Fault.nullDereference`, after which nothing more is said about the program.
* `delete` and the destructor of `BiomeFactory` release memory only and are not modelled.
-/

namespace PatternsDZ2

/-! Console -/

/-- The manipulator `std::endl` applied to the console: `out << std::endl`. -/
def endl (out : String) : String := out ++ "\n"

/-! Prototype -/

/-- The concrete subclasses of `Biome` with their two private string members. -/
inductive Biome where
  | Forest (treeType wildlife : String)
  | Desert (sandType climate : String)
  | Ocean (waterType marineLife : String)
  deriving DecidableEq

namespace Biome

/-- The member `clone()`: `new Forest(*this)`, `new Desert(*this)`, `new Ocean(*this)`; the implicit
copy constructor copies both members. -/
def clone : Biome → Biome
  | Forest treeType wildlife => Forest treeType wildlife
  | Desert sandType climate => Desert sandType climate
  | Ocean waterType marineLife => Ocean waterType marineLife

/-- The member `print()`: the text sent to `std::cout`. -/
def print (b : Biome) (out : String) : String :=
  match b with
  | Forest treeType wildlife =>
    endl (out ++ "Forest with " ++ treeType ++ " trees and " ++ wildlife ++ " wildlife.")
  | Desert sandType climate =>
    endl (out ++ "Desert with " ++ sandType ++ " sand and " ++ climate ++ " climate.")
  | Ocean waterType marineLife =>
    endl (out ++ "Ocean with " ++ waterType ++ " water and " ++ marineLife ++ " marine life.")

end Biome

/-- A `Biome*`; `none` is `nullptr`. -/
abbrev BiomePtr := Option Biome

/-- Undefined behaviour the program can run into. -/
inductive Fault where
  | nullDereference
  deriving DecidableEq

/-- The entries of a `std::unordered_map<std::string, Biome*>`. -/
abbrev UnorderedMap := List (String × BiomePtr)

namespace UnorderedMap

/-- The keys of the entries. -/
def keys (m : UnorderedMap) : List String := m.map Prod.fst

/-- The container invariant: no two entries have the same key. -/
def WellFormed (m : UnorderedMap) : Prop := m.keys.Nodup

/-- The lookup `m.find(k)`: the value stored under `k`, if there is an entry for `k`. -/
def find (m : UnorderedMap) (k : String) : Option BiomePtr := List.lookup k m

/-- The member `m.count(k)`: the number of entries with key `k`. -/
def count (m : UnorderedMap) (k : String) : Nat := m.keys.count k

/-- The subscript `m[k]` as an rvalue: when there is no entry for `k`, one with a value-initialised
(null) pointer is inserted first; the result is the map afterwards and the value of the
entry. -/
def subscript (m : UnorderedMap) (k : String) : UnorderedMap × BiomePtr :=
  match m.find k with
  | some p => (m, p)
  | none => (m ++ [(k, none)], none)

/-- Assignment through the reference returned by `m[k]`: the entry for `k` gets the value `p`. -/
def assign (m : UnorderedMap) (k : String) (p : BiomePtr) : UnorderedMap :=
  m.map fun e => if e.1 = k then (e.1, p) else e

end UnorderedMap

/-- The class `BiomeFactory` with its only member `prototypes`. -/
structure BiomeFactory where
  prototypes : UnorderedMap
  deriving DecidableEq

namespace BiomeFactory

/-- A default-constructed factory: the map is empty. -/
def new : BiomeFactory := { prototypes := [] }

/-- The member `registerBiome(name, prototype)`: `prototypes[name] = prototype;`. -/
def registerBiome (f : BiomeFactory) (name : String) (prototype : BiomePtr) : BiomeFactory :=
  { prototypes := (f.prototypes.subscript name).1.assign name prototype }

/-- The member `createBiome(name)`: `return prototypes[name]->clone();`. The subscript may insert a null
entry; calling `clone` through a null pointer is undefined behaviour. On success the result is
the clone together with the factory afterwards. -/
def createBiome (f : BiomeFactory) (name : String) : Except Fault (Biome × BiomeFactory) :=
  match f.prototypes.subscript name with
  | (_, none) => .error .nullDereference
  | (m, some prototype) => .ok (prototype.clone, { prototypes := m })

end BiomeFactory

/-! Builder -/

/-- The class `Computer`; its three members are default-constructed (empty) strings. -/
structure Computer where
  processor : String
  ram : String
  storage : String
  deriving DecidableEq

namespace Computer

/-- The expression `new Computer()`. -/
def new : Computer := { processor := "", ram := "", storage := "" }

/-- The member `setProcessor(processor)`. -/
def setProcessor (c : Computer) (processor : String) : Computer := { c with processor := processor }

/-- The member `setRAM(ram)`. -/
def setRAM (c : Computer) (ram : String) : Computer := { c with ram := ram }

/-- The member `setStorage(storage)`. -/
def setStorage (c : Computer) (storage : String) : Computer := { c with storage := storage }

/-- The member `show()`: the text sent to `std::cout`. -/
def show_ (c : Computer) (out : String) : String :=
  endl (out ++ "Computer with " ++ c.processor ++ " processor, " ++ c.ram ++ " RAM, and "
    ++ c.storage ++ " storage.")

end Computer

/-- The abstract class `ComputerBuilder`: the four pure virtual member functions, acting on
the state `β` of a concrete builder. -/
class ComputerBuilder (β : Type) where
  buildProcessor : β → β
  buildRAM : β → β
  buildStorage : β → β
  getComputer : β → Computer

/-- The class `GamingComputerBuilder`; `computer` points to a computer owned by the builder. -/
structure GamingComputerBuilder where
  computer : Computer
  deriving DecidableEq

/-- The constructor `GamingComputerBuilder()`: `computer = new Computer();`. -/
def GamingComputerBuilder.new : GamingComputerBuilder := { computer := Computer.new }

instance : ComputerBuilder GamingComputerBuilder where
  buildProcessor b := { computer := b.computer.setProcessor "Intel i9" }
  buildRAM b := { computer := b.computer.setRAM "32GB" }
  buildStorage b := { computer := b.computer.setStorage "1TB SSD" }
  getComputer b := b.computer

/-- The class `OfficeComputerBuilder`; `computer` points to a computer owned by the builder. -/
structure OfficeComputerBuilder where
  computer : Computer
  deriving DecidableEq

/-- The constructor `OfficeComputerBuilder()`: `computer = new Computer();`. -/
def OfficeComputerBuilder.new : OfficeComputerBuilder := { computer := Computer.new }

instance : ComputerBuilder OfficeComputerBuilder where
  buildProcessor b := { computer := b.computer.setProcessor "Intel i5" }
  buildRAM b := { computer := b.computer.setRAM "16GB" }
  buildStorage b := { computer := b.computer.setStorage "512GB SSD" }
  getComputer b := b.computer

/-- The member `Director::construct()` on the builder the director refers to. -/
def Director.construct {β : Type} [ComputerBuilder β] (builder : β) : β :=
  let builder := ComputerBuilder.buildProcessor builder
  let builder := ComputerBuilder.buildRAM builder
  ComputerBuilder.buildStorage builder

/-- The three build steps of a `ComputerBuilder`. -/
inductive BuildStep where
  | buildProcessor
  | buildRAM
  | buildStorage
  deriving DecidableEq

/-- Calling one build step on a builder. -/
def BuildStep.call {β : Type} [ComputerBuilder β] : BuildStep → β → β
  | buildProcessor => ComputerBuilder.buildProcessor
  | buildRAM => ComputerBuilder.buildRAM
  | buildStorage => ComputerBuilder.buildStorage

/-- Calling a sequence of build steps on a builder, first to last. -/
def BuildStep.callAll {β : Type} [ComputerBuilder β] (steps : List BuildStep) (builder : β) : β :=
  steps.foldl (fun b step => step.call b) builder

/-- A builder together with the log of the build steps called on it so far. -/
structure Recorded (β : Type) where
  builder : β
  calls : List BuildStep

/-- A recorded builder forwards every call to the builder it wraps and logs the build steps. -/
instance {β : Type} [ComputerBuilder β] : ComputerBuilder (Recorded β) where
  buildProcessor r :=
    { builder := ComputerBuilder.buildProcessor r.builder, calls := r.calls ++ [.buildProcessor] }
  buildRAM r :=
    { builder := ComputerBuilder.buildRAM r.builder, calls := r.calls ++ [.buildRAM] }
  buildStorage r :=
    { builder := ComputerBuilder.buildStorage r.builder, calls := r.calls ++ [.buildStorage] }
  getComputer r := ComputerBuilder.getComputer r.builder

/-! Factory Method -/

/-- The concrete subclasses of `Report`; they have no members. -/
inductive Report where
  | PDFReport
  | HTMLReport
  deriving DecidableEq

/-- The member `generate()`: the text sent to `std::cout`. -/
def Report.generate (r : Report) (out : String) : String :=
  match r with
  | PDFReport => endl (out ++ "Generating a PDF report.")
  | HTMLReport => endl (out ++ "Generating an HTML report.")

/-- The concrete subclasses of `ReportCreator`; they have no members. -/
inductive ReportCreator where
  | PDFReportCreator
  | HTMLReportCreator
  deriving DecidableEq

namespace ReportCreator

/-- The member `createReport()`. -/
def createReport : ReportCreator → Report
  | PDFReportCreator => Report.PDFReport
  | HTMLReportCreator => Report.HTMLReport

/-- The member `generateReport()`: create the report, `generate()` it, delete it. -/
def generateReport (c : ReportCreator) (out : String) : String :=
  let report := c.createReport
  report.generate out

end ReportCreator

/-! Abstract Factory -/

/-- The concrete subclasses of `VideoPlayer`. -/
inductive VideoPlayer where
  | WindowsVideoPlayer
  | MacVideoPlayer
  deriving DecidableEq

/-- The member `play()` of a video player. -/
def VideoPlayer.play (p : VideoPlayer) (out : String) : String :=
  match p with
  | WindowsVideoPlayer => endl (out ++ "Playing video on Windows.")
  | MacVideoPlayer => endl (out ++ "Playing video on Mac.")

/-- The concrete subclasses of `AudioPlayer`. -/
inductive AudioPlayer where
  | WindowsAudioPlayer
  | MacAudioPlayer
  deriving DecidableEq

/-- The member `play()` of an audio player. -/
def AudioPlayer.play (p : AudioPlayer) (out : String) : String :=
  match p with
  | WindowsAudioPlayer => endl (out ++ "Playing audio on Windows.")
  | MacAudioPlayer => endl (out ++ "Playing audio on Mac.")

/-- The concrete subclasses of `MultimediaFactory`. -/
inductive MultimediaFactory where
  | WindowsMultimediaFactory
  | MacMultimediaFactory
  deriving DecidableEq

namespace MultimediaFactory

/-- The member `createVideoPlayer()`. -/
def createVideoPlayer : MultimediaFactory → VideoPlayer
  | WindowsMultimediaFactory => VideoPlayer.WindowsVideoPlayer
  | MacMultimediaFactory => VideoPlayer.MacVideoPlayer

/-- The member `createAudioPlayer()`. -/
def createAudioPlayer : MultimediaFactory → AudioPlayer
  | WindowsMultimediaFactory => AudioPlayer.WindowsAudioPlayer
  | MacMultimediaFactory => AudioPlayer.MacAudioPlayer

end MultimediaFactory

/-! The driver -/

/-- The function `main()`: the text written to `std::cout` and the exit code, or the fault the
run ends in. -/
def main : Except Fault (String × Int) := do
  let out := endl ("" ++ "Prototype pattern")
  let biomeFactory := BiomeFactory.new
  let biomeFactory := biomeFactory.registerBiome "Forest" (some (Biome.Forest "Pine" "Deer"))
  let biomeFactory := biomeFactory.registerBiome "Desert" (some (Biome.Desert "Golden" "Hot"))
  let biomeFactory := biomeFactory.registerBiome "Ocean" (some (Biome.Ocean "Salt" "Fish"))
  let (forestClone, biomeFactory) ← biomeFactory.createBiome "Forest"
  let out := forestClone.print out
  let (desertClone, biomeFactory) ← biomeFactory.createBiome "Desert"
  let out := desertClone.print out
  let (oceanClone, _) ← biomeFactory.createBiome "Ocean"
  let out := oceanClone.print out
  let out := endl (out ++ "--------------------------------------------------------")
  let out := endl (out ++ "Builder pattern")
  let gamingBuilder := GamingComputerBuilder.new
  let gamingBuilder := Director.construct gamingBuilder
  let gamingComputer := ComputerBuilder.getComputer gamingBuilder
  let out := gamingComputer.show_ out
  let officeBuilder := OfficeComputerBuilder.new
  let officeBuilder := Director.construct officeBuilder
  let officeComputer := ComputerBuilder.getComputer officeBuilder
  let out := officeComputer.show_ out
  let out := endl (out ++ "--------------------------------------------------------")
  let out := endl (out ++ "Factory pattern")
  let pdfCreator := ReportCreator.PDFReportCreator
  let out := pdfCreator.generateReport out
  let htmlCreator := ReportCreator.HTMLReportCreator
  let out := htmlCreator.generateReport out
  let out := endl (out ++ "--------------------------------------------------------")
  let out := endl (out ++ "Abstract factory pattern")
  let factory := MultimediaFactory.WindowsMultimediaFactory
  let windowsVideoPlayer := factory.createVideoPlayer
  let windowsAudioPlayer := factory.createAudioPlayer
  let out := windowsVideoPlayer.play out
  let out := windowsAudioPlayer.play out
  let factory := MultimediaFactory.MacMultimediaFactory
  let macVideoPlayer := factory.createVideoPlayer
  let macAudioPlayer := factory.createAudioPlayer
  let out := macVideoPlayer.play out
  let out := macAudioPlayer.play out
  return (out, 0)

/-! Facts about the map -/

namespace UnorderedMap

theorem find_nil (k : String) : find [] k = none := rfl

theorem find_cons (e : String × BiomePtr) (m : UnorderedMap) (k : String) :
    find (e :: m) k = if k = e.1 then some e.2 else find m k := by
  obtain ⟨a, p⟩ := e
  unfold find
  by_cases h : k = a
  · subst h; simp [List.lookup]
  · have hb : (k == a) = false := by simpa using h
    simp [List.lookup, hb, h]

theorem find_eq_none_iff (m : UnorderedMap) (k : String) : find m k = none ↔ k ∉ m.keys := by
  induction m with
  | nil => simp [find_nil, keys]
  | cons e m ih =>
    rw [find_cons]
    by_cases h : k = e.1
    · simp [h, keys]
    · have hk : k ∈ keys (e :: m) ↔ k ∈ keys m := by simp [keys, h]
      simp [h, ih, hk]

theorem find_append_entry (m : UnorderedMap) (k k' : String) (p : BiomePtr) :
    find (m ++ [(k, p)]) k' =
      match find m k' with
      | some q => some q
      | none => if k' = k then some p else none := by
  induction m with
  | nil => simp [find_cons, find_nil]
  | cons e m ih =>
    rw [List.cons_append, find_cons, find_cons]
    by_cases h : k' = e.1
    · simp [h]
    · simp [h, ih]

theorem find_assign (m : UnorderedMap) (k k' : String) (p : BiomePtr) :
    find (assign m k p) k' = if k' = k then (find m k').map (fun _ => p) else find m k' := by
  induction m with
  | nil => simp [assign, find_nil]
  | cons e m ih =>
    have hcons : assign (e :: m) k p = (if e.1 = k then (e.1, p) else e) :: assign m k p := by
      simp [assign]
    rw [hcons, find_cons, find_cons, ih]
    by_cases h1 : e.1 = k <;> by_cases h2 : k' = k <;> by_cases h3 : k' = e.1 <;>
      simp_all

theorem keys_assign (m : UnorderedMap) (k : String) (p : BiomePtr) :
    (assign m k p).keys = m.keys := by
  induction m with
  | nil => rfl
  | cons e m ih =>
    simp only [keys, assign, List.map_cons] at ih ⊢
    rw [ih]
    by_cases h : e.1 = k <;> simp [h]

theorem subscript_of_find_some (m : UnorderedMap) (k : String) (p : BiomePtr)
    (h : find m k = some p) : subscript m k = (m, p) := by
  simp [subscript, h]

theorem subscript_of_find_none (m : UnorderedMap) (k : String)
    (h : find m k = none) : subscript m k = (m ++ [(k, none)], none) := by
  simp [subscript, h]

theorem find_subscript (m : UnorderedMap) (k k' : String) :
    find (subscript m k).1 k' =
      match find m k' with
      | some q => some q
      | none => if k' = k then some none else none := by
  cases h : find m k with
  | some p =>
    rw [subscript_of_find_some m k p h]
    cases h' : find m k' with
    | some q => simp
    | none =>
      have : k' ≠ k := by
        intro hk; rw [hk, h] at h'; cases h'
      simp [this]
  | none =>
    rw [subscript_of_find_none m k h]
    exact find_append_entry m k k' none

theorem wellFormed_nil : WellFormed [] := by
  simp [WellFormed, keys]

theorem wellFormed_subscript (m : UnorderedMap) (k : String) (h : WellFormed m) :
    WellFormed (subscript m k).1 := by
  cases hf : find m k with
  | some p => rw [subscript_of_find_some m k p hf]; exact h
  | none =>
    rw [subscript_of_find_none m k hf]
    have hk : k ∉ m.keys := (find_eq_none_iff m k).1 hf
    unfold WellFormed keys at *
    rw [List.map_append, List.nodup_append]
    refine ⟨h, by simp, ?_⟩
    intro a ha hb
    simp at hb
    subst hb
    exact hk ha

theorem wellFormed_assign (m : UnorderedMap) (k : String) (p : BiomePtr) (h : WellFormed m) :
    WellFormed (assign m k p) := by
  unfold WellFormed
  rw [keys_assign]
  exact h

theorem count_eq_one (m : UnorderedMap) (k : String) (p : BiomePtr) (h : WellFormed m)
    (hf : find m k = some p) : count m k = 1 := by
  have hk : k ∈ m.keys := by
    by_contra hn
    rw [(find_eq_none_iff m k).2 hn] at hf
    cases hf
  exact List.count_eq_one_of_mem h hk

end UnorderedMap

namespace Biome

theorem clone_eq (b : Biome) : b.clone = b := by
  cases b <;> rfl

end Biome

namespace BiomeFactory

/-- What is stored under each name after a registration. -/
theorem find_registerBiome (f : BiomeFactory) (name k : String) (p : BiomePtr) :
    (f.registerBiome name p).prototypes.find k =
      if k = name then some p else f.prototypes.find k := by
  unfold registerBiome
  simp only
  rw [UnorderedMap.find_assign, UnorderedMap.find_subscript]
  by_cases h : k = name
  · subst h
    cases hf : f.prototypes.find k <;> simp
  · cases hf : f.prototypes.find k <;> simp [h]

/-- A registration keeps the keys of the map unique. -/
theorem wellFormed_registerBiome (f : BiomeFactory) (name : String) (p : BiomePtr)
    (h : f.prototypes.WellFormed) : (f.registerBiome name p).prototypes.WellFormed :=
  UnorderedMap.wellFormed_assign _ _ _ (UnorderedMap.wellFormed_subscript _ _ h)

/-- Creating from a name that holds a template returns its clone and leaves the factory as is. -/
theorem createBiome_of_find_some (f : BiomeFactory) (name : String) (t : Biome)
    (h : f.prototypes.find name = some (some t)) :
    f.createBiome name = .ok (t.clone, f) := by
  unfold createBiome
  rw [UnorderedMap.subscript_of_find_some _ _ _ h]

/-- Creating from a name without an entry runs into the null pointer. -/
theorem createBiome_of_find_none (f : BiomeFactory) (name : String)
    (h : f.prototypes.find name = none) :
    f.createBiome name = .error .nullDereference := by
  unfold createBiome
  rw [UnorderedMap.subscript_of_find_none _ _ h]

/-- Creating from a name whose entry is a null pointer runs into the null pointer. -/
theorem createBiome_of_find_null (f : BiomeFactory) (name : String)
    (h : f.prototypes.find name = some none) :
    f.createBiome name = .error .nullDereference := by
  unfold createBiome
  rw [UnorderedMap.subscript_of_find_some _ _ _ h]

end BiomeFactory

/-! Console text -/

theorem endl_append (out text : String) : endl (out ++ text) = out ++ (text ++ "\n") := by
  simp [endl, String.append_assoc]

namespace Biome

theorem print_eq (b : Biome) (out : String) : b.print out = out ++ b.print "" := by
  cases b <;> simp [print, endl, String.append_assoc]

end Biome

/-! Prototype: registering and creating -/

/-- C1: after `registerBiome(name, t)`, in any factory and for any name and template `t`,
`createBiome(name)` succeeds and returns an object that prints exactly what `t` prints; for
`Forest("Pine","Deer")` registered under `"Forest"` that is the line
`Forest with Pine trees and Deer wildlife.`. -/
theorem createBiome_registerBiome_prints :
    (∀ (f : BiomeFactory) (name : String) (t : Biome),
      ∃ clone f', (f.registerBiome name (some t)).createBiome name = .ok (clone, f') ∧
        ∀ out, clone.print out = t.print out) ∧
    (∀ (f : BiomeFactory),
      ∃ clone f', (f.registerBiome "Forest" (some (Biome.Forest "Pine" "Deer"))).createBiome
          "Forest" = .ok (clone, f') ∧
        ∀ out, clone.print out = out ++ "Forest with Pine trees and Deer wildlife.\n") := by
  have key : ∀ (f : BiomeFactory) (name : String) (t : Biome),
      (f.registerBiome name (some t)).createBiome name
        = .ok (t.clone, f.registerBiome name (some t)) := by
    intro f name t
    apply BiomeFactory.createBiome_of_find_some
    rw [BiomeFactory.find_registerBiome]
    simp
  refine ⟨fun f name t => ⟨t.clone, _, key f name t, fun out => by rw [Biome.clone_eq]⟩,
    fun f => ⟨_, _, key f _ _, fun out => ?_⟩⟩
  rw [Biome.clone_eq, Biome.print_eq]
  rfl

/-- C2: in the factory that holds the three biomes of the driver, `createBiome("Tundra")`
for the never registered name `"Tundra"` reports no error: the subscript inserts a null entry
and `clone` is called through the null pointer, which is undefined behaviour. -/
theorem createBiome_unregistered_nullDereference :
    (((BiomeFactory.new.registerBiome "Forest" (some (Biome.Forest "Pine" "Deer"))).registerBiome
        "Desert" (some (Biome.Desert "Golden" "Hot"))).registerBiome
        "Ocean" (some (Biome.Ocean "Salt" "Fish"))).prototypes.find "Tundra" = none ∧
    (((BiomeFactory.new.registerBiome "Forest" (some (Biome.Forest "Pine" "Deer"))).registerBiome
        "Desert" (some (Biome.Desert "Golden" "Hot"))).registerBiome
        "Ocean" (some (Biome.Ocean "Salt" "Fish"))).prototypes.subscript "Tundra"
      = ([("Forest", some (Biome.Forest "Pine" "Deer")), ("Desert", some (Biome.Desert "Golden" "Hot")),
          ("Ocean", some (Biome.Ocean "Salt" "Fish")), ("Tundra", none)], none) ∧
    (((BiomeFactory.new.registerBiome "Forest" (some (Biome.Forest "Pine" "Deer"))).registerBiome
        "Desert" (some (Biome.Desert "Golden" "Hot"))).registerBiome
        "Ocean" (some (Biome.Ocean "Salt" "Fish"))).createBiome "Tundra"
      = .error Fault.nullDereference := by
  refine ⟨?_, ?_, ?_⟩ <;> rfl

/-- C3: in a factory whose map has unique keys, after `registerBiome(name, t1)` and then
`registerBiome(name, t2)`, `createBiome(name)` returns a clone of `t2` that prints what `t2`
prints (so not what `t1` prints, when the two differ), and the map holds exactly one entry for
`name`. -/
theorem registerBiome_twice_replaces (f : BiomeFactory) (name : String) (t1 t2 : Biome)
    (h : f.prototypes.WellFormed) :
    ((f.registerBiome name (some t1)).registerBiome name (some t2)).createBiome name
      = .ok (t2.clone, (f.registerBiome name (some t1)).registerBiome name (some t2)) ∧
    t2.clone = t2 ∧
    (∀ out, t2.clone.print out = t2.print out) ∧
    (∀ out, t1.print out ≠ t2.print out → t2.clone.print out ≠ t1.print out) ∧
    ((f.registerBiome name (some t1)).registerBiome name (some t2)).prototypes.find name
      = some (some t2) ∧
    ((f.registerBiome name (some t1)).registerBiome name (some t2)).prototypes.count name = 1 := by
  have hfind : ((f.registerBiome name (some t1)).registerBiome name (some t2)).prototypes.find name
      = some (some t2) := by
    rw [BiomeFactory.find_registerBiome]; simp
  have hwf := BiomeFactory.wellFormed_registerBiome _ name (some t2)
    (BiomeFactory.wellFormed_registerBiome f name (some t1) h)
  refine ⟨BiomeFactory.createBiome_of_find_some _ _ _ hfind, Biome.clone_eq t2,
    fun out => by rw [Biome.clone_eq], fun out hne => ?_, hfind,
    UnorderedMap.count_eq_one _ _ _ hwf hfind⟩
  rw [Biome.clone_eq]
  exact fun heq => hne heq.symm

theorem registerBiome_twice_replaces_witness :
    (BiomeFactory.mk [("Ocean", some (Biome.Ocean "Salt" "Fish")), ("Forest", none)]).prototypes.WellFormed ∧
    (((BiomeFactory.mk [("Ocean", some (Biome.Ocean "Salt" "Fish")), ("Forest", none)]).registerBiome
        "Forest" (some (Biome.Forest "Pine" "Deer"))).registerBiome
        "Forest" (some (Biome.Desert "Golden" "Hot"))).prototypes.count "Forest" = 1 := by
  have hwf : (BiomeFactory.mk
      [("Ocean", some (Biome.Ocean "Salt" "Fish")), ("Forest", none)]).prototypes.WellFormed := by
    unfold UnorderedMap.WellFormed UnorderedMap.keys
    decide
  exact ⟨hwf, (registerBiome_twice_replaces _ "Forest" (Biome.Forest "Pine" "Deer")
    (Biome.Desert "Golden" "Hot") hwf).2.2.2.2.2⟩

/-- C9: `registerBiome(n, p)` changes only the entry for `n`: for every factory and every name
`m` other than `n`, `createBiome(m)` afterwards returns the same clone, or ends in the same
fault, as `createBiome(m)` before the registration. -/
theorem registerBiome_frame (f : BiomeFactory) (n m : String) (p : BiomePtr) (h : m ≠ n) :
    (f.registerBiome n p).prototypes.find m = f.prototypes.find m ∧
    ((f.registerBiome n p).createBiome m).map Prod.fst = (f.createBiome m).map Prod.fst := by
  have hfind : (f.registerBiome n p).prototypes.find m = f.prototypes.find m := by
    rw [BiomeFactory.find_registerBiome]; simp [h]
  refine ⟨hfind, ?_⟩
  cases hf : f.prototypes.find m with
  | none =>
    rw [BiomeFactory.createBiome_of_find_none f m hf,
      BiomeFactory.createBiome_of_find_none _ m (hfind.trans hf)]
  | some q =>
    cases q with
    | none =>
      rw [BiomeFactory.createBiome_of_find_null f m hf,
        BiomeFactory.createBiome_of_find_null _ m (hfind.trans hf)]
    | some t =>
      rw [BiomeFactory.createBiome_of_find_some f m t hf,
        BiomeFactory.createBiome_of_find_some _ m t (hfind.trans hf)]
      rfl

theorem registerBiome_frame_witness :
    "Forest" ≠ "Desert" ∧
    (((BiomeFactory.mk [("Forest", some (Biome.Forest "Pine" "Deer"))]).registerBiome
        "Desert" (some (Biome.Desert "Golden" "Hot"))).createBiome "Forest").map Prod.fst
      = .ok (Biome.Forest "Pine" "Deer") := by
  refine ⟨by decide, ?_⟩
  rw [(registerBiome_frame (BiomeFactory.mk [("Forest", some (Biome.Forest "Pine" "Deer"))])
    "Desert" "Forest" (some (Biome.Desert "Golden" "Hot")) (by decide)).2]
  rfl

/-- C10: `createBiome(name)` on a name that holds a template `t` leaves the factory as it was
(same names, same stored templates), returns a clone with the variant and attribute values of
`t`, and a second `createBiome(name)` returns an equal clone. -/
theorem createBiome_registered_pure (f : BiomeFactory) (name : String) (t : Biome)
    (h : f.prototypes.find name = some (some t)) :
    f.createBiome name = .ok (t, f) ∧
    (f.createBiome name >>= fun r => r.2.createBiome name) = .ok (t, f) := by
  have h1 : f.createBiome name = .ok (t, f) := by
    rw [BiomeFactory.createBiome_of_find_some f name t h, Biome.clone_eq]
  refine ⟨h1, ?_⟩
  rw [h1]
  exact h1

theorem createBiome_registered_pure_witness :
    (BiomeFactory.mk [("Ocean", some (Biome.Ocean "Salt" "Fish"))]).prototypes.find "Ocean"
      = some (some (Biome.Ocean "Salt" "Fish")) ∧
    (BiomeFactory.mk [("Ocean", some (Biome.Ocean "Salt" "Fish"))]).createBiome "Ocean"
      = .ok (Biome.Ocean "Salt" "Fish", BiomeFactory.mk [("Ocean", some (Biome.Ocean "Salt" "Fish"))]) :=
  ⟨rfl, (createBiome_registered_pure (BiomeFactory.mk [("Ocean", some (Biome.Ocean "Salt" "Fish"))])
    "Ocean" (Biome.Ocean "Salt" "Fish") rfl).1⟩

/-! Builder: the director and partial builds -/

namespace Computer

theorem show_eq (c : Computer) (out : String) :
    c.show_ out = out ++ ("Computer with " ++ c.processor ++ " processor, " ++ c.ram
      ++ " RAM, and " ++ c.storage ++ " storage.\n") := by
  simp [show_, endl, String.append_assoc]

end Computer

/-- The director calls the three build steps of any builder once each, in the order
processor, RAM, storage. -/
theorem Director.construct_recorded {β : Type} [ComputerBuilder β] (builder : β)
    (calls : List BuildStep) :
    Director.construct (Recorded.mk builder calls)
      = Recorded.mk (Director.construct builder)
          (calls ++ [BuildStep.buildProcessor, BuildStep.buildRAM, BuildStep.buildStorage]) := by
  simp [Director.construct, ComputerBuilder.buildProcessor, ComputerBuilder.buildRAM,
    ComputerBuilder.buildStorage]

/-- C5: for both builder variants and every prior state `c` of the builder's computer,
`Director::construct()` calls `buildProcessor`, `buildRAM`, `buildStorage` once each in that
order, and the computer afterwards depends on the variant only: the gaming one shows
`Computer with Intel i9 processor, 32GB RAM, and 1TB SSD storage.`, the office one
`Computer with Intel i5 processor, 16GB RAM, and 512GB SSD storage.`. -/
theorem director_construct_deterministic :
    (∀ c : Computer,
      (Director.construct (Recorded.mk (GamingComputerBuilder.mk c) [])).calls
        = [BuildStep.buildProcessor, BuildStep.buildRAM, BuildStep.buildStorage] ∧
      (Director.construct (Recorded.mk (GamingComputerBuilder.mk c) [])).builder
        = Director.construct (GamingComputerBuilder.mk c) ∧
      ComputerBuilder.getComputer (Director.construct (GamingComputerBuilder.mk c))
        = Computer.mk "Intel i9" "32GB" "1TB SSD" ∧
      ∀ out, (ComputerBuilder.getComputer (Director.construct (GamingComputerBuilder.mk c))).show_ out
        = out ++ "Computer with Intel i9 processor, 32GB RAM, and 1TB SSD storage.\n") ∧
    (∀ c : Computer,
      (Director.construct (Recorded.mk (OfficeComputerBuilder.mk c) [])).calls
        = [BuildStep.buildProcessor, BuildStep.buildRAM, BuildStep.buildStorage] ∧
      (Director.construct (Recorded.mk (OfficeComputerBuilder.mk c) [])).builder
        = Director.construct (OfficeComputerBuilder.mk c) ∧
      ComputerBuilder.getComputer (Director.construct (OfficeComputerBuilder.mk c))
        = Computer.mk "Intel i5" "16GB" "512GB SSD" ∧
      ∀ out, (ComputerBuilder.getComputer (Director.construct (OfficeComputerBuilder.mk c))).show_ out
        = out ++ "Computer with Intel i5 processor, 16GB RAM, and 512GB SSD storage.\n") := by
  constructor
  · intro c
    refine ⟨by rw [Director.construct_recorded]; rfl, by rw [Director.construct_recorded], rfl, ?_⟩
    intro out
    rw [Computer.show_eq]
    rfl
  · intro c
    refine ⟨by rw [Director.construct_recorded]; rfl, by rw [Director.construct_recorded], rfl, ?_⟩
    intro out
    rw [Computer.show_eq]
    rfl

theorem getComputer_callAll_gaming (steps : List BuildStep) (c : Computer) :
    ComputerBuilder.getComputer (BuildStep.callAll steps (GamingComputerBuilder.mk c))
      = { processor := if BuildStep.buildProcessor ∈ steps then "Intel i9" else c.processor
          ram := if BuildStep.buildRAM ∈ steps then "32GB" else c.ram
          storage := if BuildStep.buildStorage ∈ steps then "1TB SSD" else c.storage } := by
  induction steps generalizing c with
  | nil => rfl
  | cons step steps ih =>
    have hstep : BuildStep.callAll (step :: steps) (GamingComputerBuilder.mk c)
        = BuildStep.callAll steps (step.call (GamingComputerBuilder.mk c)) := rfl
    rw [hstep]
    cases step
    · have hcall : BuildStep.buildProcessor.call (GamingComputerBuilder.mk c)
          = GamingComputerBuilder.mk (c.setProcessor "Intel i9") := rfl
      rw [hcall, ih]
      simp [Computer.setProcessor]
    · have hcall : BuildStep.buildRAM.call (GamingComputerBuilder.mk c)
          = GamingComputerBuilder.mk (c.setRAM "32GB") := rfl
      rw [hcall, ih]
      simp [Computer.setRAM]
    · have hcall : BuildStep.buildStorage.call (GamingComputerBuilder.mk c)
          = GamingComputerBuilder.mk (c.setStorage "1TB SSD") := rfl
      rw [hcall, ih]
      simp [Computer.setStorage]

theorem getComputer_callAll_office (steps : List BuildStep) (c : Computer) :
    ComputerBuilder.getComputer (BuildStep.callAll steps (OfficeComputerBuilder.mk c))
      = { processor := if BuildStep.buildProcessor ∈ steps then "Intel i5" else c.processor
          ram := if BuildStep.buildRAM ∈ steps then "16GB" else c.ram
          storage := if BuildStep.buildStorage ∈ steps then "512GB SSD" else c.storage } := by
  induction steps generalizing c with
  | nil => rfl
  | cons step steps ih =>
    have hstep : BuildStep.callAll (step :: steps) (OfficeComputerBuilder.mk c)
        = BuildStep.callAll steps (step.call (OfficeComputerBuilder.mk c)) := rfl
    rw [hstep]
    cases step
    · have hcall : BuildStep.buildProcessor.call (OfficeComputerBuilder.mk c)
          = OfficeComputerBuilder.mk (c.setProcessor "Intel i5") := rfl
      rw [hcall, ih]
      simp [Computer.setProcessor]
    · have hcall : BuildStep.buildRAM.call (OfficeComputerBuilder.mk c)
          = OfficeComputerBuilder.mk (c.setRAM "16GB") := rfl
      rw [hcall, ih]
      simp [Computer.setRAM]
    · have hcall : BuildStep.buildStorage.call (OfficeComputerBuilder.mk c)
          = OfficeComputerBuilder.mk (c.setStorage "512GB SSD") := rfl
      rw [hcall, ih]
      simp [Computer.setStorage]

/-- C7: `getComputer()` validates nothing: on a freshly constructed builder of either variant,
after any sequence `steps` of build steps (none, some or all of them, in any order),
`getComputer()` returns the computer in which a field holds the variant's value when its step
is among `steps` and the empty string otherwise. -/
theorem getComputer_partial (steps : List BuildStep) :
    ComputerBuilder.getComputer (BuildStep.callAll steps GamingComputerBuilder.new)
      = { processor := if BuildStep.buildProcessor ∈ steps then "Intel i9" else ""
          ram := if BuildStep.buildRAM ∈ steps then "32GB" else ""
          storage := if BuildStep.buildStorage ∈ steps then "1TB SSD" else "" } ∧
    ComputerBuilder.getComputer (BuildStep.callAll steps OfficeComputerBuilder.new)
      = { processor := if BuildStep.buildProcessor ∈ steps then "Intel i5" else ""
          ram := if BuildStep.buildRAM ∈ steps then "16GB" else ""
          storage := if BuildStep.buildStorage ∈ steps then "512GB SSD" else "" } :=
  ⟨getComputer_callAll_gaming steps Computer.new, getComputer_callAll_office steps Computer.new⟩

/-! Factory Method -/

/-- C6: `generateReport()` of either creator creates that creator's one kind of report, calls
`generate()` on it once and writes that report's line and nothing else: the PDF creator writes
`Generating a PDF report.`, the HTML creator `Generating an HTML report.`; the operation is
total. -/
theorem generateReport_emits :
    ReportCreator.PDFReportCreator.createReport = Report.PDFReport ∧
    ReportCreator.HTMLReportCreator.createReport = Report.HTMLReport ∧
    (∀ (c : ReportCreator) (out : String), c.generateReport out = c.createReport.generate out) ∧
    (∀ out, ReportCreator.PDFReportCreator.generateReport out
      = out ++ "Generating a PDF report.\n") ∧
    (∀ out, ReportCreator.HTMLReportCreator.generateReport out
      = out ++ "Generating an HTML report.\n") := by
  refine ⟨rfl, rfl, fun _ _ => rfl, fun out => ?_, fun out => ?_⟩
  · exact endl_append out "Generating a PDF report."
  · exact endl_append out "Generating an HTML report."

/-! Abstract Factory -/

/-- C4: for each multimedia factory the lines played by its video player and by its audio
player name one and the same platform family: `Playing video on Windows.` and
`Playing audio on Windows.` for the Windows factory, `Playing video on Mac.` and
`Playing audio on Mac.` for the Mac factory. -/
theorem factory_family_consistent :
    (∀ out, MultimediaFactory.WindowsMultimediaFactory.createVideoPlayer.play out
      = out ++ "Playing video on Windows.\n") ∧
    (∀ out, MultimediaFactory.WindowsMultimediaFactory.createAudioPlayer.play out
      = out ++ "Playing audio on Windows.\n") ∧
    (∀ out, MultimediaFactory.MacMultimediaFactory.createVideoPlayer.play out
      = out ++ "Playing video on Mac.\n") ∧
    (∀ out, MultimediaFactory.MacMultimediaFactory.createAudioPlayer.play out
      = out ++ "Playing audio on Mac.\n") ∧
    (∀ factory : MultimediaFactory, ∃ family : String, ∀ out,
      factory.createVideoPlayer.play out = out ++ ("Playing video on " ++ family ++ ".\n") ∧
      factory.createAudioPlayer.play out = out ++ ("Playing audio on " ++ family ++ ".\n")) := by
  refine ⟨fun out => endl_append out _, fun out => endl_append out _,
    fun out => endl_append out _, fun out => endl_append out _, fun factory => ?_⟩
  cases factory
  · exact ⟨"Windows", fun out => ⟨endl_append out _, endl_append out _⟩⟩
  · exact ⟨"Mac", fun out => ⟨endl_append out _, endl_append out _⟩⟩

/-! The driver -/

set_option maxRecDepth 100000

/-- C8: `main()` takes no input, runs the Prototype, Builder, Factory Method and Abstract
Factory demonstrations in that order without reaching a fault (each `createBiome` names a
registered biome), writes one fixed text and returns 0. -/
theorem main_output :
    (∀ name ∈ ["Forest", "Desert", "Ocean"], ∃ t : Biome,
      (((BiomeFactory.new.registerBiome "Forest" (some (Biome.Forest "Pine" "Deer"))).registerBiome
        "Desert" (some (Biome.Desert "Golden" "Hot"))).registerBiome
        "Ocean" (some (Biome.Ocean "Salt" "Fish"))).prototypes.find name = some (some t)) ∧
    main = .ok (
      "Prototype pattern\n" ++
      "Forest with Pine trees and Deer wildlife.\n" ++
      "Desert with Golden sand and Hot climate.\n" ++
      "Ocean with Salt water and Fish marine life.\n" ++
      "--------------------------------------------------------\n" ++
      "Builder pattern\n" ++
      "Computer with Intel i9 processor, 32GB RAM, and 1TB SSD storage.\n" ++
      "Computer with Intel i5 processor, 16GB RAM, and 512GB SSD storage.\n" ++
      "--------------------------------------------------------\n" ++
      "Factory pattern\n" ++
      "Generating a PDF report.\n" ++
      "Generating an HTML report.\n" ++
      "--------------------------------------------------------\n" ++
      "Abstract factory pattern\n" ++
      "Playing video on Windows.\n" ++
      "Playing audio on Windows.\n" ++
      "Playing video on Mac.\n" ++
      "Playing audio on Mac.\n", 0) := by
  refine ⟨?_, rfl⟩
  intro name hname
  simp only [List.mem_cons, List.mem_singleton, List.not_mem_nil, or_false] at hname
  rcases hname with h | h | h <;> subst h
  · exact ⟨_, rfl⟩
  · exact ⟨_, rfl⟩
  · exact ⟨_, rfl⟩

end PatternsDZ2
